import Mathlib

/-!
Shallow embedding of the `hn_daily` digest generator (`src/main.rs`):
story listing, per-story content acquisition with failure isolation, the
content-type paywall heuristic, plain-text normalization
(`clean_content`), and assembly of the index + articles HTML document
(`render_html`).

Effectful collaborators (the HTTP client, `Url::parse`, the readability
extractor, the `scraper` DOM text walk, `html2text`, and the optional
`wkhtmltopdf` tool) are passed in explicitly as capabilities, exactly at
the points where the source calls them.  Fallible Rust operations
(`Result`) are modelled with `Except String`.  The integers involved
(`u32` scores, `u64` ids, `usize` lengths) only ever hold small counts
here and are modelled as `Nat`; the one place a length is compared
(`word.len() > 30`) uses the UTF-8 byte length, modelled with
`Char.utf8Size`.
-/

namespace HnDaily

/-- The `Item` struct deserialized from the Hacker News item endpoint. -/
structure Item where
  id : Nat
  «by» : Option String
  score : Option Nat
  time : Option Nat
  title : Option String
  url : Option String
  descendants : Option Nat

/-- The `ScrapedContent` struct produced by `fetch_and_process`. -/
structure ScrapedContent where
  title : String
  content : String
  content_html : String
  is_paywall : Bool
  domain : String

/-- Model of a `reqwest::blocking::Response`.

`contentTypeHeader` models `response.headers().get("content-type")`
composed with `HeaderValue::to_str().ok()`: `none` means the header is
absent, `some none` means it is present but not a valid string, and
`some (some v)` is an ordinary value `v`.  `bodyText` models
`response.text()`, which can fail while decoding the body. -/
structure HttpResponse where
  status : Nat
  contentTypeHeader : Option (Option String)
  bodyText : Except String String

/-- Model of a parsed `url::Url`; only `host_str()` is consulted. -/
structure UrlParsed where
  host_str : Option String

/-- Result of `readability::extractor::extract`: a title and the main
content as an HTML fragment. -/
structure Article where
  title : String
  content : String

/-- The effectful environment of the acquisition phase.

* `buildClient` — `Client::builder()...build()`, which is fallible (`?`).
* `send` — `client.get(url).send()` for the built client (the
  browser-like headers and the timeout are fixed configuration of that
  client).
* `parseUrl` — `Url::parse`.
* `extract` — `extractor::extract(body, parsed_url)`.
* `textOf` — `Html::parse_document(html).root_element().text()`, the
  sequence of text nodes scraper yields for an HTML fragment. -/
structure Env where
  buildClient : Except String Unit
  send : String → Except String HttpResponse
  parseUrl : String → Except String UrlParsed
  extract : String → UrlParsed → Except String Article
  textOf : String → List String

/-! ## String helpers (models of `str::contains` and `char::is_whitespace`) -/

/-- Whether `p` is an initial segment of `h`. -/
def leadsWith : List Char → List Char → Bool
  | [], _ => true
  | _ :: _, [] => false
  | p :: ps, h :: hs => p == h && leadsWith ps hs

/-- Whether `pat` occurs contiguously in the second list. -/
def hasSub (pat : List Char) : List Char → Bool
  | [] => leadsWith pat []
  | h :: hs => leadsWith pat (h :: hs) || hasSub pat hs

/-- Model of Rust `str::contains` with a literal pattern. -/
def strContains (hay pat : String) : Bool := hasSub pat.toList hay.toList

/-- Model of Rust `char::is_whitespace`: the Unicode `White_Space`
code points, which `str::split_whitespace` splits on. -/
def isWS (c : Char) : Bool :=
  let n := c.toNat
  n == 0x9 || n == 0xA || n == 0xB || n == 0xC || n == 0xD || n == 0x20 ||
    n == 0x85 || n == 0xA0 || n == 0x1680 ||
    (decide (0x2000 ≤ n) && decide (n ≤ 0x200A)) ||
    n == 0x2028 || n == 0x2029 || n == 0x202F || n == 0x205F || n == 0x3000

/-- Worker for `splitWS`: `acc` holds the current in-progress word in
reverse.  Mirrors `str::split_whitespace`: maximal runs of
non-whitespace characters, in order; no empty words. -/
def splitWSAux : List Char → List Char → List (List Char)
  | [], acc => if acc.isEmpty then [] else [acc.reverse]
  | c :: cs, acc =>
    if isWS c then
      if acc.isEmpty then splitWSAux cs [] else acc.reverse :: splitWSAux cs []
    else
      splitWSAux cs (c :: acc)

/-- Model of Rust `str::split_whitespace` on a string given as its
character list. -/
def splitWS (cs : List Char) : List (List Char) := splitWSAux cs []

/-- Rust `str::len` of a word: its UTF-8 byte length. -/
def utf8Len (w : List Char) : Nat := (w.map Char.utf8Size).sum

/-- The word loop of `clean_content` (main.rs lines 200-217): `result`
is the string built so far, `lineLen` is `current_line_length`.  A
separating space is pushed before a word whenever `current_line_length
> 0`; after any word longer than 30 bytes a soft-break space is pushed
and the line length resets to 0. -/
def cleanLoop : List (List Char) → List Char → Nat → List Char
  | [], result, _ => result
  | word :: rest, result, lineLen =>
    let result := if 0 < lineLen then result ++ [' '] else result
    let lineLen := if 0 < lineLen then lineLen + 1 else lineLen
    let result := result ++ word
    let lineLen := lineLen + utf8Len word
    if 30 < utf8Len word then cleanLoop rest (result ++ [' ']) 0
    else cleanLoop rest result lineLen

/-- The whitespace normalization inside `clean_content`: split the text
on whitespace and rebuild it with the loop above. -/
def normalizeChars (cs : List Char) : List Char := cleanLoop (splitWS cs) [] 0

/-- The plain-text normalization of `clean_content` at the `String`
level: split on whitespace and rebuild with the word loop. -/
def normalize (s : String) : String := (normalizeChars s.toList).asString

/-- Model of `clean_content` (main.rs lines 190-220): walk the
fragment's text nodes (`textOf`, the scraper capability), join them
with a single space, then normalize whitespace with the word loop. -/
def clean_content (textOf : String → List String) (html : String) : String :=
  normalize (String.intercalate (" ") (textOf html))

/-! ## Acquisition -/

/-- Model of `reqwest::StatusCode::is_success`: `200 ≤ code < 300`. -/
def statusIsSuccess (s : Nat) : Bool := decide (200 ≤ s) && decide (s < 300)

/-- Model of `detect_paywall` (main.rs lines 176-188): the page is
classified as paywalled exactly when the declared content type
(defaulted to the empty string when the header is missing or
unreadable) does not contain `"text/html"`. -/
def detect_paywall (response : HttpResponse) : Bool :=
  let content_type := (response.contentTypeHeader.bind fun v => v).getD ("")
  !(strContains content_type ("text/html"))

/-- Model of `extract_domain` (main.rs lines 222-227): parse the URL
and take its host, failing when parsing fails or the URL has no host. -/
def extract_domain (env : Env) (url : String) : Except String String :=
  match env.parseUrl url with
  | .error e => .error e
  | .ok parsed =>
    match parsed.host_str with
    | some h => .ok h
    | none => .error ("No host in URL")

/-- Model of `fetch_and_process` (main.rs lines 143-174): send the request, fail
on a non-success status, classify the paywall, extract the domain, read
the body, parse the URL, run the readability extractor, and derive the
plain text with `clean_content`. -/
def fetch_and_process (env : Env) (url : String) : Except String ScrapedContent :=
  match env.send url with
  | .error e => .error ("Request failed: " ++ e)
  | .ok response =>
    if !(statusIsSuccess response.status) then
      .error ("Failed with status: " ++ toString response.status)
    else
      let is_paywall := detect_paywall response
      match extract_domain env url with
      | .error e => .error e
      | .ok domain =>
        match response.bodyText with
        | .error e => .error e
        | .ok html =>
          match env.parseUrl url with
          | .error e => .error e
          | .ok parsed_url =>
            match env.extract html parsed_url with
            | .error e => .error e
            | .ok article =>
              let content_html := article.content
              let content := clean_content env.textOf content_html
              .ok { title := article.title, content := content,
                    content_html := content_html, is_paywall := is_paywall,
                    domain := domain }

/-- One iteration of the `fetch_article_content` loop, together with the
list of URLs the iteration sends a GET request for.  A story with no
URL, or an empty one, is skipped (`None`, no request); otherwise the
single request of `fetch_and_process` is recorded and an `Err` from it
degrades the slot to `None`. -/
def slotTraced (env : Env) (item : Item) : Option ScrapedContent × List String :=
  match item.url with
  | some url =>
    if url.isEmpty then (none, [])
    else
      match fetch_and_process env url with
      | .ok content => (some content, [url])
      | .error _ => (none, [url])
  | none => (none, [])

/-- The result slot the acquisition loop records for one story. -/
def slotOf (env : Env) (item : Item) : Option ScrapedContent :=
  (slotTraced env item).1

/-- The `for item in items` loop of `fetch_article_content`, pushing one
slot per story in order. -/
def acquireLoop (env : Env) : List Item → List (Option ScrapedContent)
  | [] => []
  | item :: rest => (slotTraced env item).1 :: acquireLoop env rest

/-- Model of `fetch_article_content` (main.rs lines 107-141): build the
browser-header client (the one fallible step, `build()?`), then run the
per-story loop. -/
def fetch_article_content (env : Env) (items : List Item) :
    Except String (List (Option ScrapedContent)) :=
  match env.buildClient with
  | .error e => .error e
  | .ok _ => .ok (acquireLoop env items)

/-! ## Listing -/

/-- The effectful environment of `fetch_front_page`:
`buildClient` is the listing client's `build()?`, `topstories` the
top-stories endpoint fetch-and-parse, `itemJson` the per-id item
endpoint fetch-and-parse. -/
structure ListEnv where
  buildClient : Except String Unit
  topstories : Except String (List Nat)
  itemJson : Nat → Except String Item

/-- The item loop of `fetch_front_page`: fetch each id's detail in
order; any failure aborts the whole loop (`?`), so no partial list is
ever returned. -/
def frontLoop (env : ListEnv) : List Nat → Except String (List Item)
  | [] => .ok []
  | id :: rest =>
    match env.itemJson id with
    | .error e => .error e
    | .ok item =>
      match frontLoop env rest with
      | .error e => .error e
      | .ok items => .ok (item :: items)

/-- Model of `fetch_front_page` (main.rs lines 83-105): build the client, fetch
the top-story ids, and fetch the first `limit` item details fail-fast. -/
def fetch_front_page (env : ListEnv) (limit : Nat) : Except String (List Item) :=
  match env.buildClient with
  | .error e => .error e
  | .ok _ =>
    match env.topstories with
    | .error e => .error e
    | .ok ids => frontLoop env (ids.take limit)

/-! ## Rendering -/

/-- One `<li>` of the sidebar index (the first loop of `render_html`):
entry `i` links to the `#article-i` anchor. -/
def indexEntry (i : Nat) (it : Item) : String :=
  "<li><a href=\"#article-" ++ toString i ++ "\">" ++
    it.title.getD ("[no title]") ++ "</a></li>"

/-- The index loop of `render_html` starting at position `i`. -/
def buildIndexFrom (i : Nat) : List Item → List String
  | [] => []
  | it :: rest => indexEntry i it :: buildIndexFrom (i + 1) rest

/-- The index entries of `render_html`, one per story in order. -/
def buildIndex (items : List Item) : List String := buildIndexFrom 0 items

/-- The per-story content block: `contents.get(i)` matched as in
`render_html` — only `Some(Some(content))` renders content (with the
domain label and, when flagged, the paywall warning); anything else
renders the unavailable notice. -/
def contentBlock (slot : Option (Option ScrapedContent)) : String :=
  match slot with
  | some (some content) =>
    let paywall_warning :=
      if content.is_paywall then
        "<div class=\"paywall-warning\">Content may be behind a paywall</div>"
      else ""
    "<div class=\"content\">" ++ "<div class=\"domain\">" ++ content.domain ++
      "</div>" ++ paywall_warning ++ "<div class=\"full-content\">" ++
      content.content_html ++ "</div>" ++ "</div>"
  | _ => "<div class=\"content\">" ++ "<em>Could not retrieve content</em>" ++ "</div>"

/-- One `<article>` section of `render_html`: its anchor id is
`article-i`, followed by the linked title, the metadata line with the
documented defaults, and the content block. -/
def articleSection (i : Nat) (it : Item) (block : String) : String :=
  "<article id=\"article-" ++ toString i ++ "\"" ++ " class=\"story\">" ++
    "<h2><a href=\"" ++ it.url.getD ("#") ++ "\">" ++ it.title.getD ("[no title]") ++
    "</a></h2>" ++ "<p class=\"meta\">" ++ toString (it.score.getD 0) ++
    " points • by " ++ (it.«by».getD ("unknown")) ++ " • " ++
    toString (it.descendants.getD 0) ++ " comments</p>" ++ block ++
    "</article>" ++ "<hr>"

/-- The article loop of `render_html` starting at position `i`, reading
slot `i` of the contents collection for story `i`. -/
def buildArticlesFrom (contents : List (Option ScrapedContent)) (i : Nat) :
    List Item → List String
  | [] => []
  | it :: rest =>
    articleSection i it (contentBlock contents[i]?) ::
      buildArticlesFrom contents (i + 1) rest

/-- The article sections of `render_html`, one per story in order. -/
def buildArticles (items : List Item) (contents : List (Option ScrapedContent)) :
    List String := buildArticlesFrom contents 0 items

/-- The fixed text of the `render_html` format string before its first
interpolation slot (the date inside `<title>`).  Here and below, the
Rust backslash-newline continuations are resolved (they drop the
newline and the following indentation), `\x7b`/`\x7d` denote the
literal braces written `&#123;&#123;`-style as doubled braces in the
format string, and `\x27` is a literal apostrophe. -/
def htmlDocOpen : String :=
  "<!DOCTYPE html><html lang=\"en\"><head><meta charset=\"utf-8\">" ++
  "<meta name=\"viewport\" content=\"width=device-width, initial-scale=1.0\">" ++
  "<title>Hacker News Daily – "

/-- The fixed text between the `<title>` date slot and the
`<p class="date">` date slot: the style sheet and the
intersection-observer script of `render_html`, then the opening of the
body. -/
def htmlHeadAndBodyOpen : String :=
  "</title><style>" ++
  "body\x7bfont-family:Georgia,serif;margin:0;padding:0;display:flex;flex-direction:column;\x7d" ++
  "h1\x7btext-align:center;margin:0;padding:20px 0 10px 0;\x7d" ++
  ".date\x7btext-align:center;margin:0 0 20px 0;\x7d" ++
  ".main-container\x7bdisplay:flex;flex:1;\x7d" ++
  ".sidebar\x7bposition:sticky;top:0;width:240px;height:100vh;overflow-y:auto;background:#f8f8f8;padding:15px;box-sizing:border-box;border-right:1px solid #ddd;\x7d" ++
  ".sidebar h2\x7btext-align:center;margin-top:0;font-size:1.2em;\x7d" ++
  ".story-index\x7bpadding-left:20px;margin:0;\x7d" ++
  ".story-index li\x7bmargin-bottom:0.8em;font-size:0.85em;\x7d" ++
  ".articles\x7bflex:1;padding:20px;overflow-y:auto;box-sizing:border-box;\x7d" ++
  ".article-container\x7bmax-width:700px;margin:0 auto;\x7d" ++
  ".story\x7bmargin-bottom:1.5em;\x7d" ++
  ".story h2\x7bfont-size:1.2em;margin:1em 0 .1em 0;\x7d" ++
  ".meta\x7bfont-size:.8em;color:#555;margin:0 0 .5em 0;\x7d" ++
  ".content\x7bfont-size:0.85em;margin-top:0.5em;\x7d" ++
  ".domain\x7bcolor:#888;font-size:0.9em;margin-bottom:0.3em;\x7d" ++
  ".full-content\x7bline-height:1.5;margin-top:1em;overflow-wrap:break-word;word-wrap:break-word;\x7d" ++
  ".full-content p\x7bmargin:0.7em 0;\x7d" ++
  "/* Improve content display */" ++
  ".full-content img\x7bmax-width:100%;height:auto;\x7d" ++
  ".full-content pre, .full-content code\x7bmax-width:100%;overflow-x:auto;white-space:pre-wrap;background:#f5f5f5;padding:2px 4px;border-radius:3px;\x7d" ++
  ".full-content table\x7bmax-width:100%;overflow-x:auto;border-collapse:collapse;\x7d" ++
  ".full-content th, .full-content td\x7bborder:1px solid #ddd;padding:4px 8px;\x7d" ++
  ".paywall-warning\x7bcolor:#aa3300;font-style:italic;margin-bottom:0.3em;\x7d" ++
  ".back-to-top\x7bdisplay:none;\x7d" ++
  "hr\x7bborder:0;border-top:1px solid #ddd;margin:2em 0;\x7d" ++
  "a\x7bcolor:#000;text-decoration:none;\x7d" ++
  "a:hover\x7btext-decoration:underline;\x7d" ++
  "a.active\x7bfont-weight:bold;color:#ff6600;background:#fff3e0;padding:2px 5px;border-radius:3px;margin-left:-5px;\x7d" ++
  "@media print\x7b.sidebar\x7bdisplay:none;\x7d .articles\x7bmargin:0;max-width:none;\x7d a\x7bcolor:#000\x7d\x7d" ++
  "@media (max-width: 800px) \x7b.main-container\x7bflex-direction:column;\x7d .sidebar\x7bposition:static;width:100%;height:auto;\x7d .articles\x7bpadding:15px;\x7d\x7d" ++
  "</style><script>" ++
  "// Handle direct click navigation and sync with scroll position\n" ++
  "document.addEventListener(\"DOMContentLoaded\", function() \x7bconst articles = document.querySelectorAll(\".story\");const links = document.querySelectorAll(\".story-index a\");// Handle link clicks\n" ++
  "  links.forEach(link => \x7blink.addEventListener(\"click\", function(e) \x7b// Remove active class from all links\n" ++
  "      links.forEach(l => l.classList.remove(\"active\"));// Add active class to clicked link\n" ++
  "      this.classList.add(\"active\");\x7d);\x7d);// Use a better IntersectionObserver for scroll highlighting\n" ++
  "  const observerOptions = \x7broot: null, // viewport\n" ++
  "    rootMargin: \"-100px 0px -300px 0px\", // top, right, bottom, left margins\n" ++
  "    threshold: 0.2 // 20% of the element should be visible\n" ++
  "  \x7d;let currentActiveLink = null;const observer = new IntersectionObserver((entries) => \x7bentries.forEach(entry => \x7b// When an article comes into view\n" ++
  "      if (entry.isIntersecting && entry.intersectionRatio >= 0.2) \x7bconst id = entry.target.id;const targetLink = document.querySelector(\".story-index a[href=\x27#\" + id + \"\x27]\");if (targetLink && targetLink !== currentActiveLink) \x7b// Remove active class from all links\n" ++
  "          links.forEach(link => link.classList.remove(\"active\"));// Add active class to corresponding link\n" ++
  "          targetLink.classList.add(\"active\");currentActiveLink = targetLink;\x7d\x7d\x7d);\x7d, observerOptions);// Observe all articles\n" ++
  "  articles.forEach(article => \x7bobserver.observe(article);\x7d);// Set the first item as active by default if we\x27re at the top of the page\n" ++
  "  if (window.scrollY < 100 && links.length > 0) \x7blinks[0].classList.add(\"active\");currentActiveLink = links[0];\x7d\x7d);" ++
  "</script></head><body><h1>Hacker News Daily</h1><p class=\"date\">"

/-- The fixed text between the body date slot and the index slot. -/
def htmlBeforeIndex : String :=
  "</p><div class=\"main-container\"><div class=\"sidebar\">" ++
  "<h2>Article Index</h2><ol class=\"story-index\">"

/-- The fixed text between the index slot and the articles slot. -/
def htmlBetween : String :=
  "</ol></div><div class=\"articles\"><div class=\"article-container\">"

/-- The fixed text after the articles slot. -/
def htmlDocClose : String := "</div></div></div></body></html>"

/-- The `format!` template of `render_html` with its four slots
(`today`, `today`, the accumulated index, the accumulated articles). -/
def htmlTemplate (today index articles : String) : String :=
  htmlDocOpen ++ today ++ htmlHeadAndBodyOpen ++ today ++
    htmlBeforeIndex ++ index ++ htmlBetween ++ articles ++ htmlDocClose

/-- Model of `render_html` (main.rs lines 229-415): the index loop's
entries and the article loop's sections, concatenated into the
document template.  The date (`Local::now`) is passed in as `today`. -/
def render_html (today : String) (items : List Item)
    (contents : List (Option ScrapedContent)) : String :=
  htmlTemplate today (String.join (buildIndex items))
    (String.join (buildArticles items contents))

/-! ## The run (`main`) -/

/-- Model of `main` (main.rs lines 43-81): list the top 30 stories
(fail-fast), acquire content, render, and emit the output artifacts as
(name, contents) pairs — the HTML digest, the `html2text` rendition,
and, when `wkhtmltopdf` is on the path, a best-effort PDF produced by
that external tool.  Directory creation and file writing are the
filesystem collaborators and are out of scope; a listing or acquisition
failure propagates before any artifact exists. -/
def mainModel (lenv : ListEnv) (env : Env) (html2text : String → String)
    (wkAvailable : Bool) (pdfBytes : String) (date today : String) :
    Except String (List (String × String)) :=
  match fetch_front_page lenv 30 with
  | .error e => .error e
  | .ok stories =>
    match fetch_article_content env stories with
    | .error e => .error e
    | .ok stories_with_content =>
      let html := render_html today stories stories_with_content
      let text := html2text html
      let files := [(date ++ ".html", html), (date ++ ".txt", text)]
      .ok (if wkAvailable then files ++ [(date ++ ".pdf", pdfBytes)] else files)

/-! ## Characterizations used to state the claims -/

/-- Accumulator-free form of `cleanLoop`: the Boolean says whether a
separating space is due before the next word (that is, whether
`current_line_length > 0` on entry). -/
def softJoinRest : Bool → List (List Char) → List Char
  | _, [] => []
  | sep, w :: ws =>
    (if sep then [' '] else []) ++ w ++
      (if 30 < utf8Len w then ' ' :: softJoinRest false ws
       else softJoinRest true ws)

/-- The trailing soft-break space `cleanLoop` leaves when the final
word is longer than 30 bytes. -/
def softTrail (ws : List (List Char)) : List Char :=
  match ws.getLast? with
  | some w => if 30 < utf8Len w then [' '] else []
  | none => []

/-- Words joined by single spaces, with nothing at either end. -/
def joinSpace : List (List Char) → List Char
  | [] => []
  | [w] => w
  | w :: ws => w ++ ' ' :: joinSpace ws

/-- Modelled from the spec: the claimed output of the plain-text
normalization, "the sequence of the input's text words joined by
single spaces" — stated for comparison with `normalize`. -/
def specJoinedWords (s : String) : String :=
  (joinSpace (splitWS s.toList)).asString

/-! ## Concrete inputs for witnesses and counterexamples -/

/-- A story with no external URL (a discussion-only post). -/
def askItem : Item :=
  { id := 1, «by» := some ("alice"), score := some 10, time := none,
    title := some ("Ask HN: test"), url := none, descendants := some 3 }

/-- A story whose external URL is present. -/
def linkItem : Item :=
  { id := 2, «by» := some ("bob"), score := some 5, time := none,
    title := some ("A story"), url := some ("https://example.com/a"),
    descendants := some 0 }

/-- A story whose external URL is the empty string. -/
def emptyUrlItem : Item :=
  { id := 3, «by» := none, score := none, time := none,
    title := none, url := some (""), descendants := none }

/-- A successful response with a non-HTML content type. -/
def pdfResponse : HttpResponse :=
  { status := 200, contentTypeHeader := some (some ("application/pdf")),
    bodyText := .ok ("<html><body>x</body></html>") }

/-- An environment whose client builds and whose fetches all succeed,
returning `pdfResponse` for every URL. -/
def envOkPdf : Env :=
  { buildClient := .ok ()
    send := fun _ => .ok pdfResponse
    parseUrl := fun _ => .ok { host_str := some ("example.com") }
    extract := fun _ _ => .ok { title := "T", content := "<p>body</p>" }
    textOf := fun _ => ["body"] }

/-- An environment whose client builds but whose network is down. -/
def envNetDown : Env :=
  { buildClient := .ok ()
    send := fun _ => .error ("connection refused")
    parseUrl := fun _ => .error ("relative URL without a base")
    extract := fun _ _ => .error ("no content")
    textOf := fun _ => [] }

/-- An environment whose HTTP client fails to build. -/
def envBuildFails : Env :=
  { buildClient := .error ("tls backend initialization failed")
    send := fun _ => .error ("unused")
    parseUrl := fun _ => .error ("unused")
    extract := fun _ _ => .error ("unused")
    textOf := fun _ => [] }

/-- A listing environment whose top-stories fetch fails. -/
def lenvTopFails : ListEnv :=
  { buildClient := .ok ()
    topstories := .error ("connection timed out")
    itemJson := fun _ => .error ("unused") }

/-- A word of 31 ASCII characters (longer than 30 bytes). -/
def longWord : String := "aaaaaaaaaaaaaaaaaaaaaaaaaaaaaaa"

/-- A successful response that carries no content-type header at all. -/
def noCtResponse : HttpResponse :=
  { status := 200, contentTypeHeader := none, bodyText := .ok ("") }

/-! # Lemmas -/

/-- A word never has UTF-8 byte length zero unless it is empty. -/
theorem utf8Len_pos {w : List Char} (h : w ≠ []) : 0 < utf8Len w := by
  cases w with
  | nil => cases h rfl
  | cons c cs =>
    have hc := Char.utf8Size_pos c
    simp only [utf8Len, List.map_cons, List.sum_cons]
    omega

/-- A nonempty list is not `isEmpty`. -/
theorem isEmpty_false_of_ne {l : List Char} (h : l ≠ []) : l.isEmpty = false := by
  cases l with
  | nil => cases h rfl
  | cons a as => rfl

/-- The separator character is whitespace. -/
theorem isWS_space : isWS ' ' = true := by decide

/-- Every word `splitWSAux` emits is nonempty and whitespace-free,
provided the in-progress accumulator is whitespace-free. -/
theorem splitWSAux_wf : ∀ (cs acc : List Char), (∀ c ∈ acc, isWS c = false) →
    ∀ w ∈ splitWSAux cs acc, w ≠ [] ∧ ∀ c ∈ w, isWS c = false := by
  intro cs
  induction cs with
  | nil =>
    intro acc hacc w hw
    by_cases h : acc.isEmpty
    · simp [splitWSAux, h] at hw
    · simp only [splitWSAux, h, if_false, Bool.false_eq_true, List.mem_singleton] at hw
      subst hw
      refine ⟨?_, ?_⟩
      · have : acc ≠ [] := by
          intro h0; rw [h0] at h; exact h rfl
        intro h0
        exact this (by simpa using h0)
      · intro c hc
        exact hacc c (List.mem_reverse.mp hc)
  | cons c cs ih =>
    intro acc hacc w hw
    by_cases hws : isWS c = true
    · simp only [splitWSAux, hws, if_true] at hw
      by_cases h : acc.isEmpty
      · rw [if_pos h] at hw
        exact ih [] (by simp) w hw
      · rw [if_neg h] at hw
        rcases List.mem_cons.mp hw with h1 | h1
        · subst h1
          refine ⟨?_, ?_⟩
          · have : acc ≠ [] := by
              intro h0; rw [h0] at h; exact h rfl
            intro h0
            exact this (by simpa using h0)
          · intro d hd
            exact hacc d (List.mem_reverse.mp hd)
        · exact ih [] (by simp) w h1
    · simp only [splitWSAux, hws, if_false, Bool.false_eq_true] at hw
      refine ih (c :: acc) ?_ w hw
      intro d hd
      rcases List.mem_cons.mp hd with h1 | h1
      · subst h1
        simpa using hws
      · exact hacc d h1

/-- Every word of `splitWS` is nonempty and whitespace-free. -/
theorem splitWS_wf (cs : List Char) :
    ∀ w ∈ splitWS cs, w ≠ [] ∧ ∀ c ∈ w, isWS c = false :=
  splitWSAux_wf cs [] (by simp)

/-- Running `splitWSAux` over a whitespace-free chunk moves the chunk
into the accumulator. -/
theorem splitWSAux_word (w : List Char) (hw : ∀ c ∈ w, isWS c = false) :
    ∀ cs acc, splitWSAux (w ++ cs) acc = splitWSAux cs (w.reverse ++ acc) := by
  induction w with
  | nil => intro cs acc; simp
  | cons c w ih =>
    intro cs acc
    have hc : isWS c = false := hw c (by simp)
    have hw' : ∀ d ∈ w, isWS d = false := fun d hd => hw d (by simp [hd])
    simp only [List.cons_append, splitWSAux, hc, if_false, Bool.false_eq_true,
      List.append_eq]
    rw [ih hw' cs (c :: acc)]
    simp

/-- A space at the head of the input flushes a nonempty accumulator. -/
theorem splitWSAux_space (cs : List Char) (acc : List Char)
    (h : acc.isEmpty = false) :
    splitWSAux (' ' :: cs) acc = acc.reverse :: splitWSAux cs [] := by
  simp [splitWSAux, isWS_space, h]

/-- End of input flushes a nonempty accumulator. -/
theorem splitWSAux_nil_acc (acc : List Char) (h : acc.isEmpty = false) :
    splitWSAux [] acc = [acc.reverse] := by
  simp [splitWSAux, h]

/-- With another word following, the pending-separator form prepends
exactly one space. -/
theorem softJoinRest_true_cons (w : List Char) (ws : List (List Char)) :
    softJoinRest true (w :: ws) = ' ' :: softJoinRest false (w :: ws) := by
  simp [softJoinRest]

/-- A word longer than 30 bytes is always followed by exactly one
space, whether or not further words remain. -/
theorem softJoinRest_long_cons (w : List Char) (ws : List (List Char))
    (h : 30 < utf8Len w) :
    softJoinRest false (w :: ws) = w ++ (' ' :: softJoinRest false ws) := by
  simp [softJoinRest, h]

/-- With further words remaining, a word is followed by exactly one
space either way (as the separator of the next word, or as the soft
break). -/
theorem softJoinRest_false_cons (w : List Char) (ws : List (List Char))
    (h : ws ≠ []) :
    softJoinRest false (w :: ws) = w ++ (' ' :: softJoinRest false ws) := by
  cases ws with
  | nil => cases h rfl
  | cons v vs =>
    by_cases hlong : 30 < utf8Len w
    · simp [softJoinRest, hlong]
    · simp [softJoinRest, hlong]

/-- The word loop of `clean_content` equals the accumulator-free
rebuild, with a pending separator exactly when `current_line_length`
is positive on entry. -/
theorem cleanLoop_softJoin : ∀ (ws : List (List Char)), (∀ w ∈ ws, w ≠ []) →
    ∀ (acc : List Char) (len : Nat),
      cleanLoop ws acc len = acc ++ softJoinRest (decide (0 < len)) ws := by
  intro ws
  induction ws with
  | nil => intro _ acc len; simp [cleanLoop, softJoinRest]
  | cons w ws ih =>
    intro hws acc len
    have hw : w ≠ [] := hws w (by simp)
    have hrest : ∀ v ∈ ws, v ≠ [] := fun v hv => hws v (by simp [hv])
    have hwpos : 0 < utf8Len w := utf8Len_pos hw
    by_cases hlong : 30 < utf8Len w
    · rcases Nat.eq_zero_or_pos len with h0 | hpos
      · subst h0
        simp [cleanLoop, softJoinRest, hlong, ih hrest, List.append_assoc]
      · simp [cleanLoop, softJoinRest, hlong, hpos, ih hrest, List.append_assoc]
    · rcases Nat.eq_zero_or_pos len with h0 | hpos
      · subst h0
        have hd : decide (0 < utf8Len w) = true := decide_eq_true hwpos
        simp [cleanLoop, softJoinRest, hlong, ih hrest, hd, List.append_assoc]
      · have hd : decide (0 < len + 1 + utf8Len w) = true :=
          decide_eq_true (by omega)
        simp [cleanLoop, softJoinRest, hlong, hpos, ih hrest, hd, List.append_assoc]

/-- The normalization is the accumulator-free rebuild of the input's
whitespace-split words. -/
theorem normalizeChars_eq_softJoin (cs : List Char) :
    normalizeChars cs = softJoinRest false (splitWS cs) := by
  have h := cleanLoop_softJoin (splitWS cs)
    (fun w hw => (splitWS_wf cs w hw).1) [] 0
  simpa using h

/-- Splitting the rebuilt text recovers exactly the original words. -/
theorem splitWS_softJoinRest : ∀ (ws : List (List Char)),
    (∀ w ∈ ws, w ≠ [] ∧ ∀ c ∈ w, isWS c = false) →
    splitWSAux (softJoinRest false ws) [] = ws := by
  intro ws
  induction ws with
  | nil => intro _; simp [softJoinRest, splitWSAux]
  | cons w ws ih =>
    intro hws
    obtain ⟨hw, hwchars⟩ := hws w (by simp)
    have hrest : ∀ v ∈ ws, v ≠ [] ∧ ∀ c ∈ v, isWS c = false :=
      fun v hv => hws v (by simp [hv])
    have hrevne : w.reverse ≠ [] := fun h => hw (by simpa using h)
    have hne : w.reverse.isEmpty = false := isEmpty_false_of_ne hrevne
    by_cases hlong : 30 < utf8Len w
    · rw [softJoinRest_long_cons w ws hlong, splitWSAux_word w hwchars,
        List.append_nil, splitWSAux_space _ _ hne]
      simp [ih hrest]
    · cases ws with
      | nil =>
        have h1 : softJoinRest false [w] = w ++ [] := by
          simp [softJoinRest, hlong]
        rw [h1, splitWSAux_word w hwchars, List.append_nil,
          splitWSAux_nil_acc _ hne]
        simp
      | cons v vs =>
        rw [softJoinRest_false_cons w (v :: vs) (by simp),
          splitWSAux_word w hwchars, List.append_nil, splitWSAux_space _ _ hne]
        simp [ih hrest]

/-- Normalizing does not change the whitespace-split word sequence. -/
theorem splitWS_normalizeChars (cs : List Char) :
    splitWS (normalizeChars cs) = splitWS cs := by
  rw [normalizeChars_eq_softJoin]
  exact splitWS_softJoinRest (splitWS cs) (splitWS_wf cs)

/-- The rebuild is the single-space join followed by the soft-break
trail of the final word. -/
theorem softJoinRest_false_eq (ws : List (List Char)) :
    softJoinRest false ws = joinSpace ws ++ softTrail ws := by
  induction ws with
  | nil => simp [softJoinRest, joinSpace, softTrail]
  | cons w ws ih =>
    cases ws with
    | nil =>
      by_cases hlong : 30 < utf8Len w
      · simp [softJoinRest, joinSpace, softTrail, hlong]
      · simp [softJoinRest, joinSpace, softTrail, hlong]
    | cons v vs =>
      rw [softJoinRest_false_cons w (v :: vs) (by simp), ih]
      have hj : joinSpace (w :: v :: vs) = w ++ ' ' :: joinSpace (v :: vs) := by
        simp [joinSpace]
      have ht : softTrail (w :: v :: vs) = softTrail (v :: vs) := by
        simp [softTrail, List.getLast?_cons_cons]
      rw [hj, ht]
      simp [List.append_assoc]

/-- The acquisition loop records exactly the per-story slot for each
story, in order. -/
theorem acquireLoop_eq_map (env : Env) : ∀ items : List Item,
    acquireLoop env items = items.map (slotOf env) := by
  intro items
  induction items with
  | nil => rfl
  | cons it rest ih => simp [acquireLoop, slotOf, ih]

/-- An error for some requested id makes the whole item loop fail. -/
theorem frontLoop_fails_of_mem (env : ListEnv) :
    ∀ (ids : List Nat) (id : Nat) (e : String), id ∈ ids →
      env.itemJson id = .error e → (frontLoop env ids).isOk = false := by
  intro ids
  induction ids with
  | nil => intro id e h _; cases h
  | cons v vs ih =>
    intro id e hmem hfail
    cases hv : env.itemJson v with
    | error e2 => simp [frontLoop, hv, Except.isOk, Except.toBool]
    | ok it =>
      rcases List.mem_cons.mp hmem with h1 | h1
      · subst h1
        rw [hv] at hfail
        cases hfail
      · have hvs := ih id e h1 hfail
        cases hl : frontLoop env vs with
        | error e2 => simp [frontLoop, hv, hl, Except.isOk, Except.toBool]
        | ok l =>
          rw [hl] at hvs
          simp [Except.isOk, Except.toBool] at hvs

/-! # Claims -/

/-- C1: for every input list of stories, whenever the acquisition
returns a result it has exactly one slot per story, in the same index
order, and slot `i` is the per-story outcome (`slotOf`) of story `i`:
the content fetched from that story's URL, or `none`.  No slot is
skipped, reordered or duplicated, since the result is literally the
positional map of `slotOf` over the input. -/
theorem fetch_article_content_aligned (env : Env) (items : List Item)
    (rs : List (Option ScrapedContent))
    (h : fetch_article_content env items = .ok rs) :
    rs.length = items.length ∧ rs = items.map (slotOf env) := by
  unfold fetch_article_content at h
  cases hb : env.buildClient with
  | error e =>
    rw [hb] at h
    cases h
  | ok u =>
    rw [hb] at h
    have hrs : acquireLoop env items = rs := by
      injection h
    rw [← hrs, acquireLoop_eq_map]
    exact ⟨by simp, rfl⟩

/-- Witness for C1 at a concrete two-story input whose environment
fails every network call. -/
theorem fetch_article_content_aligned_witness :
    ([none, none] : List (Option ScrapedContent)).length
        = [askItem, linkItem].length ∧
      ([none, none] : List (Option ScrapedContent))
        = [askItem, linkItem].map (slotOf envNetDown) :=
  fetch_article_content_aligned envNetDown [askItem, linkItem] [none, none] rfl

/-- C2: the plain-text normalization of `clean_content` is idempotent:
normalizing twice yields the same string as normalizing once. -/
theorem normalize_idempotent (s : String) :
    normalize (normalize s) = normalize s := by
  have key : normalizeChars (normalizeChars s.toList) = normalizeChars s.toList := by
    rw [normalizeChars, splitWS_normalizeChars]
    rfl
  have h1 : (normalize s).toList = normalizeChars s.toList := rfl
  show (normalizeChars (normalize s).toList).asString = normalize s
  rw [h1, key]
  rfl

/-- C8 counterexample: on a single 31-byte word the normalization is not
the plain single-space join of the input's words — the soft break after
the long word leaves a trailing space. -/
theorem normalize_ne_plain_join :
    normalize longWord ≠ specJoinedWords longWord := by
  decide

/-- C8 (amended): the normalization collapses every whitespace run to
one ASCII space and drops no word — the output is exactly the input's
words joined by single spaces — except that one trailing soft-break
space is appended when the final word is longer than 30 bytes. -/
theorem normalize_joins_words (s : String) :
    normalize s =
      (joinSpace (splitWS s.toList) ++ softTrail (splitWS s.toList)).asString := by
  rw [normalize, normalizeChars_eq_softJoin, softJoinRest_false_eq]

/-- C4: a story whose URL is absent or empty yields the unavailable
slot with an empty request trace (no network call), and the loop
simply proceeds with the remaining stories. -/
theorem missing_url_skipped (env : Env) (item : Item) (rest : List Item)
    (h : item.url = none ∨ item.url = some ("")) :
    slotTraced env item = (none, []) ∧
      acquireLoop env (item :: rest) = none :: acquireLoop env rest := by
  have hs : slotTraced env item = (none, []) := by
    have he : ("" : String).isEmpty = true := rfl
    rcases h with h | h <;> simp [slotTraced, h, he]
  exact ⟨hs, by simp [acquireLoop, hs]⟩

/-- Witness for C4 at a concrete discussion-only story. -/
theorem missing_url_skipped_witness :
    slotTraced envNetDown askItem = (none, []) ∧
      acquireLoop envNetDown (askItem :: [linkItem])
        = none :: acquireLoop envNetDown [linkItem] :=
  missing_url_skipped envNetDown askItem [linkItem] (Or.inl rfl)

/-- C5: whatever error `fetch_and_process` returns for a story's URL —
network failure, non-success status, body-decoding failure, URL-parse
failure, missing host, or extraction failure are its only error
sources — the story's slot degrades to `none` (after its one request)
and the loop continues with the remaining stories; the batch is never
aborted. -/
theorem story_failure_isolated (env : Env) (item : Item) (rest : List Item)
    (url e : String) (hu : item.url = some url) (hne : url.isEmpty = false)
    (hf : fetch_and_process env url = .error e) :
    slotTraced env item = (none, [url]) ∧
      acquireLoop env (item :: rest) = none :: acquireLoop env rest := by
  have hs : slotTraced env item = (none, [url]) := by
    simp [slotTraced, hu, hne, hf]
  exact ⟨hs, by simp [acquireLoop, hs]⟩

/-- Witness for C5 at a concrete story whose fetch fails. -/
theorem story_failure_isolated_witness :
    slotTraced envNetDown linkItem = (none, ["https://example.com/a"]) ∧
      acquireLoop envNetDown (linkItem :: [])
        = none :: acquireLoop envNetDown [] :=
  story_failure_isolated envNetDown linkItem [] ("https://example.com/a")
    ("Request failed: connection refused") rfl rfl rfl

/-- C3: a fetched response whose declared content type does not contain
an HTML type does not fail the fetch on that account — whenever the
status is a success and the domain, body, URL parse and extraction all
succeed, the slot is present and carries `is_paywall = true`. -/
theorem nonhtml_flagged_paywalled (env : Env) (url : String)
    (resp : HttpResponse) (domain html : String) (pu : UrlParsed)
    (article : Article)
    (hsend : env.send url = .ok resp)
    (hst : statusIsSuccess resp.status = true)
    (hct : strContains ((resp.contentTypeHeader.bind fun v => v).getD (""))
      ("text/html") = false)
    (hdom : extract_domain env url = .ok domain)
    (hbody : resp.bodyText = .ok html)
    (hpu : env.parseUrl url = .ok pu)
    (hart : env.extract html pu = .ok article) :
    fetch_and_process env url =
      .ok { title := article.title,
            content := clean_content env.textOf article.content,
            content_html := article.content, is_paywall := true,
            domain := domain } := by
  have hpw : detect_paywall resp = true := by
    simp [detect_paywall, hct]
  simp [fetch_and_process, hsend, hst, hdom, hbody, hpu, hart, hpw]

/-- Witness for C3: a successful `application/pdf` response yields a
present, paywall-flagged slot. -/
theorem nonhtml_flagged_paywalled_witness :
    fetch_and_process envOkPdf ("https://example.com/a")
      = .ok { title := "T",
              content := clean_content envOkPdf.textOf ("<p>body</p>"),
              content_html := "<p>body</p>", is_paywall := true,
              domain := "example.com" } :=
  nonhtml_flagged_paywalled envOkPdf ("https://example.com/a") pdfResponse
    ("example.com") ("<html><body>x</body></html>")
    { host_str := some ("example.com") }
    { title := "T", content := "<p>body</p>" }
    rfl rfl (by decide) rfl rfl rfl rfl

/-- C9: a response with no content-type header at all, or with a value
that is not readable as a string, is classified as paywalled, exactly
like an explicitly non-HTML content type. -/
theorem missing_content_type_paywalled (r : HttpResponse)
    (h : r.contentTypeHeader = none ∨ r.contentTypeHeader = some none) :
    detect_paywall r = true := by
  rcases h with h | h <;> simp [detect_paywall, h] <;> decide

/-- Witness for C9 at a concrete header-free response. -/
theorem missing_content_type_paywalled_witness :
    detect_paywall noCtResponse = true :=
  missing_content_type_paywalled noCtResponse (Or.inl rfl)

/-- C10 counterexample: acquisition is not unconditionally `Ok` — when
the HTTP client fails to build, `fetch_article_content` returns an
error even for the empty story list. -/
theorem fetch_article_content_can_fail :
    fetch_article_content envBuildFails []
      = .error ("tls backend initialization failed") := rfl

/-- C10 (amended): the only failure point of `fetch_article_content` is
the construction of the HTTP client, which is independent of the input
stories; whenever the client builds, the function returns `Ok` with
exactly one slot per story, and no per-story processing can abort the
phase. -/
theorem fetch_article_content_ok_of_client (env : Env) (items : List Item)
    (h : env.buildClient = .ok ()) :
    fetch_article_content env items = .ok (items.map (slotOf env)) := by
  unfold fetch_article_content
  rw [h, acquireLoop_eq_map]

/-- Witness for the amended C10 with a building client and a down
network. -/
theorem fetch_article_content_ok_of_client_witness :
    fetch_article_content envNetDown [linkItem]
      = .ok ([linkItem].map (slotOf envNetDown)) :=
  fetch_article_content_ok_of_client envNetDown [linkItem] rfl

/-- C6: a failure fetching or parsing the top-story list, or fetching
or parsing any single requested item detail, makes `fetch_front_page`
return an error (no partial list exists), and the run then produces no
output artifacts. -/
theorem listing_failure_aborts_run (lenv : ListEnv) (env : Env)
    (html2text : String → String) (wk : Bool) (pdfBytes date today : String)
    (h : (∃ e, lenv.topstories = .error e) ∨
         ∃ ids id e, lenv.topstories = .ok ids ∧ id ∈ ids.take 30 ∧
           lenv.itemJson id = .error e) :
    (fetch_front_page lenv 30).isOk = false ∧
      (mainModel lenv env html2text wk pdfBytes date today).isOk = false := by
  have hfp : (fetch_front_page lenv 30).isOk = false := by
    unfold fetch_front_page
    cases hb : lenv.buildClient with
    | error e => simp [Except.isOk, Except.toBool]
    | ok u =>
      rcases h with ⟨e, he⟩ | ⟨ids, id, e, hids, hmem, hfail⟩
      · rw [he]
        simp [Except.isOk, Except.toBool]
      · rw [hids]
        exact frontLoop_fails_of_mem lenv (ids.take 30) id e hmem hfail
  refine ⟨hfp, ?_⟩
  unfold mainModel
  cases hf : fetch_front_page lenv 30 with
  | error e => simp [Except.isOk, Except.toBool]
  | ok stories =>
    rw [hf] at hfp
    simp [Except.isOk, Except.toBool] at hfp

/-- Witness for C6 with a failing top-stories fetch. -/
theorem listing_failure_aborts_run_witness :
    (fetch_front_page lenvTopFails 30).isOk = false ∧
      (mainModel lenvTopFails envNetDown (fun h => h) false ("")
        ("2025-01-01") ("January 1, 2025")).isOk = false :=
  listing_failure_aborts_run lenvTopFails envNetDown (fun h => h) false ("")
    ("2025-01-01") ("January 1, 2025")
    (Or.inl ⟨"connection timed out", rfl⟩)

/-- The index loop emits one entry per story. -/
theorem buildIndexFrom_length : ∀ (items : List Item) (k : Nat),
    (buildIndexFrom k items).length = items.length := by
  intro items
  induction items with
  | nil => intro k; rfl
  | cons it rest ih => intro k; simp [buildIndexFrom, ih]

/-- The article loop emits one section per story. -/
theorem buildArticlesFrom_length (contents : List (Option ScrapedContent)) :
    ∀ (items : List Item) (k : Nat),
    (buildArticlesFrom contents k items).length = items.length := by
  intro items
  induction items with
  | nil => intro k; rfl
  | cons it rest ih => intro k; simp [buildArticlesFrom, ih]

/-- Position `i` of the index loop started at `k` is the entry for
story `i` with anchor number `k + i`. -/
theorem buildIndexFrom_getElem? : ∀ (items : List Item) (k i : Nat),
    (buildIndexFrom k items)[i]?
      = (items[i]?).map fun it => indexEntry (k + i) it := by
  intro items
  induction items with
  | nil => intro k i; simp [buildIndexFrom]
  | cons it rest ih =>
    intro k i
    cases i with
    | zero => simp [buildIndexFrom]
    | succ n =>
      simp only [buildIndexFrom, List.getElem?_cons_succ]
      rw [ih (k + 1) n]
      have : k + 1 + n = k + (n + 1) := by omega
      rw [this]

/-- Position `i` of the article loop started at `k` is the section for
story `i` with anchor number `k + i`, rendering slot `k + i` of the
contents. -/
theorem buildArticlesFrom_getElem? (contents : List (Option ScrapedContent)) :
    ∀ (items : List Item) (k i : Nat),
    (buildArticlesFrom contents k items)[i]?
      = (items[i]?).map fun it =>
          articleSection (k + i) it (contentBlock contents[k + i]?) := by
  intro items
  induction items with
  | nil => intro k i; simp [buildArticlesFrom]
  | cons it rest ih =>
    intro k i
    cases i with
    | zero => simp [buildArticlesFrom]
    | succ n =>
      simp only [buildArticlesFrom, List.getElem?_cons_succ]
      rw [ih (k + 1) n]
      have : k + 1 + n = k + (n + 1) := by omega
      rw [this]

/-- C7: the rendered document interleaves exactly one index entry per
story and exactly one article section per story (the two loops'
outputs, concatenated into the fixed template), and for every position
`i` the index entry at `i` carries the link `#article-i` while the
article section at `i` carries the anchor id `article-i` — entry `i`
links to section `i`. -/
theorem render_html_aligned (today : String) (items : List Item)
    (contents : List (Option ScrapedContent)) :
    (buildIndex items).length = items.length ∧
    (buildArticles items contents).length = items.length ∧
    render_html today items contents =
      htmlTemplate today (String.join (buildIndex items))
        (String.join (buildArticles items contents)) ∧
    ∀ (i : Nat) (it : Item), items[i]? = some it →
      (∃ t, (buildIndex items)[i]?
          = some ("<li><a href=\"#article-" ++ toString i ++ "\">" ++ t)) ∧
      (∃ r, (buildArticles items contents)[i]?
          = some ("<article id=\"article-" ++ toString i ++ "\"" ++ r)) := by
  refine ⟨buildIndexFrom_length items 0,
    buildArticlesFrom_length contents items 0, rfl, ?_⟩
  intro i it hit
  constructor
  · refine ⟨it.title.getD ("[no title]") ++ "</a></li>", ?_⟩
    rw [buildIndex, buildIndexFrom_getElem?, hit]
    simp [indexEntry, String.append_assoc]
  · refine ⟨" class=\"story\">" ++ "<h2><a href=\"" ++ it.url.getD ("#") ++
      "\">" ++ it.title.getD ("[no title]") ++ "</a></h2>" ++
      "<p class=\"meta\">" ++ toString (it.score.getD 0) ++ " points • by " ++
      (it.«by».getD ("unknown")) ++ " • " ++ toString (it.descendants.getD 0) ++
      " comments</p>" ++ contentBlock contents[i]? ++ "</article>" ++ "<hr>", ?_⟩
    rw [buildArticles, buildArticlesFrom_getElem?, hit]
    simp only [Option.map_some']
    have h0 : (0 : Nat) + i = i := Nat.zero_add i
    rw [h0]
    simp only [Option.some.injEq]
    unfold articleSection
    simp only [String.append_assoc]

/-- Witness for C7 at a concrete one-story input with an unavailable
slot. -/
theorem render_html_aligned_witness :
    (∃ t, (buildIndex [linkItem])[0]?
        = some ("<li><a href=\"#article-" ++ toString 0 ++ "\">" ++ t)) ∧
    (∃ r, (buildArticles [linkItem] [none])[0]?
        = some ("<article id=\"article-" ++ toString 0 ++ "\"" ++ r)) :=
  (render_html_aligned ("today") [linkItem] [none]).2.2.2 0 linkItem rfl

end HnDaily
